import Mathlib

/-!
Verification of the catetin server-side persistence core: the versioned
entities (`internal/domain`), the GORM-backed repositories
(`internal/infrastructure/database/postgresql/*_repository_impl.go`), the
transaction manager (`transaction_manager.go`) and the authentication
service (`internal/service/auth_service.go`).

The Go code is shallowly embedded as pure Lean functions over an explicit
database state (`DBState`).  The repository methods build SQL statements
through GORM; the effect of those statements on the relational state is
written out here directly, following the Go source line by line for
everything visible in the repository, and following the specification for
the parts supplied by the external collaborators (the GORM soft-delete
scope, the SQL engine's constraint checking and transaction
commit/rollback).  UUIDs are modelled as `Nat` identifiers and timestamps
as `Nat` instants; Go's `time.Now()` and `uuid.New()` are oracle inputs
passed explicitly.  `float64` amounts are modelled as `Int` (none of the
embedded operations perform arithmetic on them).
-/

deriving instance DecidableEq for Except

namespace Catetin

/-! ### Error model

`internal/domain/errors.go` sentinel errors, `pkg/errors` `AppError`
values, gorm sentinel errors and `fmt.Errorf` strings, all inhabiting the
single Go `error` interface, are modelled as one inductive type. -/

/-- Error codes from `pkg/errors/errors.go` that the embedded services
use. -/
inductive ErrCode where
  | internal
  | invalidCredentials
  | emailAlreadyExists
  deriving DecidableEq, Repr

/-- A Go `error` value as produced below the service layer: the domain
sentinels of `internal/domain/errors.go` (`domain.ErrNotFound`,
`domain.ErrConflict`, `domain.ErrDuplicatePhoneNumber`) and the gorm
sentinels surfaced by the modelled database layer
(`gorm.ErrDuplicatedKey`, foreign-key violations). -/
inductive StoreErr where
  | notFound
  | conflict
  | duplicatePhoneNumber
  | gormDuplicatedKey
  | foreignKeyViolated
  deriving DecidableEq, Repr

/-- A Go `error` value as it flows through the service layer and the
transaction manager: a store error passed through unchanged, a
`pkg/errors` `AppError` (code, message, HTTP status, optional wrapped
cause), or a plain `fmt.Errorf` string. -/
inductive GoErr where
  | store (e : StoreErr)
  | app (code : ErrCode) (message : String) (httpStatus : Nat) (wrapped : Option StoreErr)
  | str (message : String)
  deriving DecidableEq, Repr

/-- `appErrors.Wrap(err, code, message, httpStatus)` as applied by the
embedded services (which only ever wrap store-level errors). -/
def wrapErr (e : StoreErr) (code : ErrCode) (message : String) (httpStatus : Nat) : GoErr :=
  GoErr.app code message httpStatus (some e)

/-- `appErrors.ErrInvalidCredentials` (pkg/errors, predefined). -/
def ErrInvalidCredentials : GoErr :=
  GoErr.app ErrCode.invalidCredentials "Invalid email or password" 401 none

/-- `appErrors.ErrEmailAlreadyExists` (pkg/errors, predefined). -/
def ErrEmailAlreadyExists : GoErr :=
  GoErr.app ErrCode.emailAlreadyExists "Email already registered" 409 none

/-- Whether a store error is one of the domain-outcome sentinels
(`NotFound`, `Conflict`, `Duplicate`), as opposed to an unclassified
error. -/
def isDomainStoreError : StoreErr → Bool
  | StoreErr.notFound => true
  | StoreErr.conflict => true
  | StoreErr.duplicatePhoneNumber => true
  | _ => false

/-- Whether a service-level error carries one of the domain-outcome
sentinels (`NotFound`, `Conflict`, `Duplicate`). -/
def isDomainGoErr : GoErr → Bool
  | GoErr.store e => isDomainStoreError e
  | _ => false

/-! ### Entities and rows

`domain.User` and `postgresql.UserModel` carry the same fields, so one
structure serves for both (`domainToModel`/`modelToDomain` are the
identity under this representation; the `gorm.DeletedAt` null flag is the
`Option`).  Likewise `domain.MoneyFlow`/`MoneyFlowModel`.  For
`repository.UserAuth` and `repository.AuthProvider` the domain structs
lack the model's version/timestamp columns, so entity and row are kept
separate. -/

/-- `domain.User` = `postgresql.UserModel` (users table row). -/
structure User where
  id : Nat
  fullName : String
  phoneNumber : String
  image : Option String
  version : Int
  createdAt : Nat
  updatedAt : Nat
  deletedAt : Option Nat
  deriving DecidableEq, Repr

/-- `domain.MoneyFlow` = `postgresql.MoneyFlowModel` (money_flows table
row).  `Tags` nil-vs-empty normalisation in the Go converters is a no-op
here since Lean lists have a single empty value. -/
structure MoneyFlow where
  id : Nat
  userId : Nat
  category : Option String
  amount : Int
  currency : String
  description : Option String
  tags : List String
  version : Int
  createdAt : Nat
  updatedAt : Nat
  deletedAt : Option Nat
  deriving DecidableEq, Repr

/-- `repository.UserAuth` (domain-side struct: no version/timestamps). -/
structure UserAuth where
  id : Nat
  userId : Nat
  authProviderId : Nat
  credentialId : String
  credentialSecret : String
  credentialRefresh : Option String
  deriving DecidableEq, Repr

/-- `postgresql.UserAuthModel` (user_auths table row). -/
structure UserAuthModel where
  id : Nat
  userId : Nat
  authProviderId : Nat
  credentialId : String
  credentialSecret : String
  credentialRefresh : Option String
  version : Int
  createdAt : Nat
  updatedAt : Nat
  deletedAt : Option Nat
  deriving DecidableEq, Repr

/-- `repository.AuthProvider` (domain-side struct). -/
structure AuthProvider where
  id : Nat
  displayName : String
  name : Option String
  image : Option String
  clientId : Option String
  clientSecret : Option String
  deriving DecidableEq, Repr

/-- `postgresql.AuthProviderModel` (auth_providers table row). -/
structure AuthProviderModel where
  id : Nat
  displayName : String
  name : Option String
  image : Option String
  clientId : Option String
  clientSecret : Option String
  version : Int
  createdAt : Nat
  updatedAt : Nat
  deletedAt : Option Nat
  deriving DecidableEq, Repr

/-- The relational state: the four tables created by migration
`000001_create_initial_tables.up.sql`. -/
structure DBState where
  users : List User
  authProviders : List AuthProviderModel
  userAuths : List UserAuthModel
  moneyFlows : List MoneyFlow
  deriving DecidableEq, Repr

/-- `authProviderRepositoryImpl.modelToDomain`. -/
def authProviderModelToDomain (m : AuthProviderModel) : AuthProvider :=
  { id := m.id, displayName := m.displayName, name := m.name,
    image := m.image, clientId := m.clientId, clientSecret := m.clientSecret }

/-- `userAuthRepositoryImpl.modelToDomain`. -/
def userAuthModelToDomain (m : UserAuthModel) : UserAuth :=
  { id := m.id, userId := m.userId, authProviderId := m.authProviderId,
    credentialId := m.credentialId, credentialSecret := m.credentialSecret,
    credentialRefresh := m.credentialRefresh }

/-! ### Domain constructors and mutators (`internal/domain`) -/

/-- `domain.NewUser(fullName, phoneNumber)`.  `uuid.New()` and
`time.Now()` are the oracle inputs `uid` and `now`. -/
def NewUser (fullName phoneNumber : String) (uid now : Nat) : User :=
  { id := uid, fullName := fullName, phoneNumber := phoneNumber,
    image := none, version := 0, createdAt := now, updatedAt := now,
    deletedAt := none }

/-- `domain.NewMoneyFlow(userID, amount, currency)`. -/
def NewMoneyFlow (userId : Nat) (amount : Int) (currency : String)
    (mfid now : Nat) : Except String MoneyFlow :=
  if amount ≤ 0 then Except.error "amount must be greater than 0"
  else
    Except.ok
      { id := mfid, userId := userId, category := none, amount := amount,
        currency := if currency == "" then "IDR" else currency,
        description := none, tags := [], version := 0,
        createdAt := now, updatedAt := now, deletedAt := none }

/-- `User.IncrementVersion` (`time.Now()` is `now`). -/
def userIncrementVersion (u : User) (now : Nat) : User :=
  { u with version := u.version + 1, updatedAt := now }

/-- `MoneyFlow.IncrementVersion`. -/
def moneyFlowIncrementVersion (mf : MoneyFlow) (now : Nat) : MoneyFlow :=
  { mf with version := mf.version + 1, updatedAt := now }

/-! ### User repository (`user_repository_impl.go`)

Modelled from the spec: the soft-delete exclusion `deleted_at IS NULL`
that GORM's `gorm.DeletedAt` default scope injects into every query built
by the repository (spec: "Soft delete as a filtered view ... a predicate
applied at every read path (`deleted_at IS NULL`)"), and the
classification of a unique-constraint violation as the duplicated-key
outcome (spec: "maps low-level store outcomes (not-found, row-count-zero,
unique-violation) into a small taxonomy").  The constraints themselves
are in src (migration: `users` primary key and the partial unique index
`idx_users_phone_number_unique ON users (phone_number) WHERE deleted_at
IS NULL`). -/

/-- `userRepositoryImpl.Create`: `db.Create(model)` inserts the converted
entity verbatim; a constraint violation (primary-key collision, or the
partial phone-number unique index over active rows) is the duplicated-key
outcome, which the repository maps to `domain.ErrDuplicatePhoneNumber`. -/
def userCreate (s : DBState) (u : User) : Except StoreErr DBState :=
  if s.users.any (fun r => r.id == u.id)
      || s.users.any (fun r => r.deletedAt.isNone && r.phoneNumber == u.phoneNumber) then
    Except.error StoreErr.duplicatePhoneNumber
  else
    Except.ok { s with users := s.users ++ [u] }

/-- `userRepositoryImpl.FindByID`: `WHERE id = ?` plus the soft-delete
scope; `gorm.ErrRecordNotFound` becomes `domain.ErrNotFound`. -/
def userFindByID (s : DBState) (id : Nat) : Except StoreErr User :=
  match s.users.find? (fun r => r.deletedAt.isNone && r.id == id) with
  | none => Except.error StoreErr.notFound
  | some r => Except.ok r

/-- `userRepositoryImpl.FindByPhoneNumber`. -/
def userFindByPhoneNumber (s : DBState) (phoneNumber : String) : Except StoreErr User :=
  match s.users.find? (fun r => r.deletedAt.isNone && r.phoneNumber == phoneNumber) with
  | none => Except.error StoreErr.notFound
  | some r => Except.ok r

/-- The `WHERE id = ? AND version = ?` predicate of
`userRepositoryImpl.Update` (with `user.Version-1` as the bound version),
plus the soft-delete scope. -/
def userUpdateMatch (u : User) (r : User) : Bool :=
  r.deletedAt.isNone && r.id == u.id && r.version == u.version - 1

/-- The SET clause of `userRepositoryImpl.Update`: full_name,
phone_number, image, version, updated_at. -/
def userApplyUpdate (u : User) (r : User) : User :=
  { r with fullName := u.fullName, phoneNumber := u.phoneNumber,
           image := u.image, version := u.version, updatedAt := u.updatedAt }

/-- `userRepositoryImpl.Update`: the conditional UPDATE; a statement
error (here only the phone-number unique violation the SET could cause
among active rows) is returned as-is, then `RowsAffected == 0` becomes
`domain.ErrConflict`. -/
def userUpdate (s : DBState) (u : User) : Except StoreErr DBState :=
  let affected := s.users.countP (fun r => userUpdateMatch u r)
  let newUsers := s.users.map (fun r => if userUpdateMatch u r then userApplyUpdate u r else r)
  if affected != 0
      && s.users.any (fun r =>
        r.deletedAt.isNone && r.id != u.id && r.phoneNumber == u.phoneNumber) then
    Except.error StoreErr.gormDuplicatedKey
  else if affected == 0 then
    Except.error StoreErr.conflict
  else
    Except.ok { s with users := newUsers }

/-- `userRepositoryImpl.Delete`: `db.Delete(&UserModel{}, "id = ?", id)`
is GORM's soft delete.  Modelled from the spec: the generated UPDATE
"soft-deletes by setting `deleted_at`/`updated_at`" on the rows matching
`id = ?` within the soft-delete scope (`now` is the SQL current time);
`RowsAffected == 0` becomes `domain.ErrNotFound`. -/
def userDelete (s : DBState) (id now : Nat) : Except StoreErr DBState :=
  let affected := s.users.countP (fun r => r.deletedAt.isNone && r.id == id)
  let newUsers := s.users.map (fun r =>
    if r.deletedAt.isNone && r.id == id then
      { r with deletedAt := some now, updatedAt := now }
    else r)
  if affected == 0 then
    Except.error StoreErr.notFound
  else
    Except.ok { s with users := newUsers }

/-- `userRepositoryImpl.List`: active rows ordered by `created_at DESC`,
then OFFSET and LIMIT. -/
def userList (s : DBState) (limit offset : Nat) : List User :=
  ((((s.users.filter (fun r => r.deletedAt.isNone)).mergeSort
      (fun a b => decide (b.createdAt ≤ a.createdAt))).drop offset).take limit)

/-! ### Money-flow repository (`money_flow_repository_impl.go`)

Same modelling conventions as the user repository.  The money_flows table
has no unique natural-key index; its only constraints are the primary key
and the `user_id` foreign key (migration file in src). -/

/-- `moneyFlowRepositoryImpl.Create`: `db.Create(model)`; any constraint
violation is returned as-is (this repository does no error mapping). -/
def moneyFlowCreate (s : DBState) (mf : MoneyFlow) : Except StoreErr DBState :=
  if s.moneyFlows.any (fun r => r.id == mf.id) then
    Except.error StoreErr.gormDuplicatedKey
  else if !(s.users.any (fun r => r.id == mf.userId)) then
    Except.error StoreErr.foreignKeyViolated
  else
    Except.ok { s with moneyFlows := s.moneyFlows ++ [mf] }

/-- `moneyFlowRepositoryImpl.FindByID`. -/
def moneyFlowFindByID (s : DBState) (id : Nat) : Except StoreErr MoneyFlow :=
  match s.moneyFlows.find? (fun r => r.deletedAt.isNone && r.id == id) with
  | none => Except.error StoreErr.notFound
  | some r => Except.ok r

/-- The `WHERE id = ? AND version = ?` predicate of
`moneyFlowRepositoryImpl.Update` (with `moneyFlow.Version-1` as the bound
version), plus the soft-delete scope. -/
def moneyFlowUpdateMatch (mf : MoneyFlow) (r : MoneyFlow) : Bool :=
  r.deletedAt.isNone && r.id == mf.id && r.version == mf.version - 1

/-- The SET clause of `moneyFlowRepositoryImpl.Update`: category, amount,
currency, description, tags, version, updated_at. -/
def moneyFlowApplyUpdate (mf : MoneyFlow) (r : MoneyFlow) : MoneyFlow :=
  { r with category := mf.category, amount := mf.amount,
           currency := mf.currency, description := mf.description,
           tags := mf.tags, version := mf.version, updatedAt := mf.updatedAt }

/-- `moneyFlowRepositoryImpl.Update`: the version-gated conditional
UPDATE; `RowsAffected == 0` becomes `domain.ErrConflict`. -/
def moneyFlowUpdate (s : DBState) (mf : MoneyFlow) : Except StoreErr DBState :=
  let affected := s.moneyFlows.countP (fun r => moneyFlowUpdateMatch mf r)
  let newFlows := s.moneyFlows.map (fun r =>
    if moneyFlowUpdateMatch mf r then moneyFlowApplyUpdate mf r else r)
  if affected == 0 then
    Except.error StoreErr.conflict
  else
    Except.ok { s with moneyFlows := newFlows }

/-- `moneyFlowRepositoryImpl.Delete`: GORM soft delete (same modelling as
`userDelete`); `RowsAffected == 0` becomes `domain.ErrNotFound`. -/
def moneyFlowDelete (s : DBState) (id now : Nat) : Except StoreErr DBState :=
  let affected := s.moneyFlows.countP (fun r => r.deletedAt.isNone && r.id == id)
  let newFlows := s.moneyFlows.map (fun r =>
    if r.deletedAt.isNone && r.id == id then
      { r with deletedAt := some now, updatedAt := now }
    else r)
  if affected == 0 then
    Except.error StoreErr.notFound
  else
    Except.ok { s with moneyFlows := newFlows }

/-! ### User-auth repository (`user_auth_repository_impl.go`) -/

/-- `userAuthRepositoryImpl.domainToModel`: the `repository.UserAuth`
struct has no version/timestamp fields, so the model is built with Go
zero values for them.  Modelled from the spec: GORM fills the zero
`CreatedAt`/`UpdatedAt` with the current time on insert (`now`); the
`version` column receives the struct's zero value 0. -/
def userAuthDomainToModel (ua : UserAuth) (now : Nat) : UserAuthModel :=
  { id := ua.id, userId := ua.userId, authProviderId := ua.authProviderId,
    credentialId := ua.credentialId, credentialSecret := ua.credentialSecret,
    credentialRefresh := ua.credentialRefresh,
    version := 0, createdAt := now, updatedAt := now, deletedAt := none }

/-- `userAuthRepositoryImpl.Create`: `db.Create(model)`; constraint
violations (primary key; the partial unique index
`idx_user_auths_user_provider ON (user_id, auth_provider_id) WHERE
deleted_at IS NULL`; the two foreign keys) are returned as-is. -/
def userAuthCreate (s : DBState) (ua : UserAuth) (now : Nat) : Except StoreErr DBState :=
  let m := userAuthDomainToModel ua now
  if s.userAuths.any (fun r => r.id == m.id)
      || s.userAuths.any (fun r =>
        r.deletedAt.isNone && r.userId == m.userId && r.authProviderId == m.authProviderId) then
    Except.error StoreErr.gormDuplicatedKey
  else if !(s.users.any (fun r => r.id == m.userId))
      || !(s.authProviders.any (fun r => r.id == m.authProviderId)) then
    Except.error StoreErr.foreignKeyViolated
  else
    Except.ok { s with userAuths := s.userAuths ++ [m] }

/-- `userAuthRepositoryImpl.FindByCredentialID`: `WHERE credential_id = ?
AND auth_provider_id = ?` plus the soft-delete scope. -/
def userAuthFindByCredentialID (s : DBState) (credentialId : String)
    (authProviderId : Nat) : Except StoreErr UserAuth :=
  match s.userAuths.find? (fun r =>
      r.deletedAt.isNone && r.credentialId == credentialId
        && r.authProviderId == authProviderId) with
  | none => Except.error StoreErr.notFound
  | some m => Except.ok (userAuthModelToDomain m)

/-- `userAuthRepositoryImpl.FindByUserIDAndProvider`. -/
def userAuthFindByUserIDAndProvider (s : DBState) (userId authProviderId : Nat) :
    Except StoreErr UserAuth :=
  match s.userAuths.find? (fun r =>
      r.deletedAt.isNone && r.userId == userId
        && r.authProviderId == authProviderId) with
  | none => Except.error StoreErr.notFound
  | some m => Except.ok (userAuthModelToDomain m)

/-- The `WHERE id = ?` predicate of `userAuthRepositoryImpl.Update` (note:
no version condition), plus the soft-delete scope. -/
def userAuthUpdateMatch (ua : UserAuth) (r : UserAuthModel) : Bool :=
  r.deletedAt.isNone && r.id == ua.id

/-- The SET clause of `userAuthRepositoryImpl.Update`: credential_id,
credential_secret, credential_refresh, updated_at (note: `version` is not
in the SET clause; `model.UpdatedAt` is the converter's Go zero value). -/
def userAuthApplyUpdate (ua : UserAuth) (r : UserAuthModel) : UserAuthModel :=
  { r with credentialId := ua.credentialId,
           credentialSecret := ua.credentialSecret,
           credentialRefresh := ua.credentialRefresh,
           updatedAt := 0 }

/-- `userAuthRepositoryImpl.Update`: an UPDATE conditioned on the id only;
`RowsAffected == 0` becomes `domain.ErrNotFound`. -/
def userAuthUpdate (s : DBState) (ua : UserAuth) : Except StoreErr DBState :=
  let affected := s.userAuths.countP (fun r => userAuthUpdateMatch ua r)
  let newAuths := s.userAuths.map (fun r =>
    if userAuthUpdateMatch ua r then userAuthApplyUpdate ua r else r)
  if affected == 0 then
    Except.error StoreErr.notFound
  else
    Except.ok { s with userAuths := newAuths }

/-- `userAuthRepositoryImpl.Delete`: GORM soft delete on the user_auths
table; `RowsAffected == 0` becomes `domain.ErrNotFound`. -/
def userAuthDelete (s : DBState) (id now : Nat) : Except StoreErr DBState :=
  let affected := s.userAuths.countP (fun r => r.deletedAt.isNone && r.id == id)
  let newAuths := s.userAuths.map (fun r =>
    if r.deletedAt.isNone && r.id == id then
      { r with deletedAt := some now, updatedAt := now }
    else r)
  if affected == 0 then
    Except.error StoreErr.notFound
  else
    Except.ok { s with userAuths := newAuths }

/-! ### Auth-provider repository (`auth_provider_repository_impl.go`) -/

/-- `authProviderRepositoryImpl.FindByName`: `WHERE name = ?` plus the
soft-delete scope.  On `gorm.ErrRecordNotFound` it returns `(nil, nil)` —
a `none` provider with no error — unlike the other finders. -/
def authProviderFindByName (s : DBState) (name : String) :
    Except StoreErr (Option AuthProvider) :=
  match s.authProviders.find? (fun r => r.deletedAt.isNone && r.name == some name) with
  | none => Except.ok none
  | some m => Except.ok (some (authProviderModelToDomain m))

/-- `authProviderRepositoryImpl.FindByID`: same `(nil, nil)` convention on
a missing row. -/
def authProviderFindByID (s : DBState) (id : Nat) :
    Except StoreErr (Option AuthProvider) :=
  match s.authProviders.find? (fun r => r.deletedAt.isNone && r.id == id) with
  | none => Except.ok none
  | some m => Except.ok (some (authProviderModelToDomain m))

/-- `authProviderRepositoryImpl.domainToModel` (version/timestamps are Go
zero values; modelled from the spec: GORM fills the zero timestamps with
the insert time). -/
def authProviderDomainToModel (p : AuthProvider) (now : Nat) : AuthProviderModel :=
  { id := p.id, displayName := p.displayName, name := p.name,
    image := p.image, clientId := p.clientId, clientSecret := p.clientSecret,
    version := 0, createdAt := now, updatedAt := now, deletedAt := none }

/-- `authProviderRepositoryImpl.Create`: `db.Create(model)`; constraint
violations (primary key; partial unique index on `name` among active
rows) are returned as-is. -/
def authProviderCreate (s : DBState) (p : AuthProvider) (now : Nat) :
    Except StoreErr DBState :=
  let m := authProviderDomainToModel p now
  if s.authProviders.any (fun r => r.id == m.id)
      || s.authProviders.any (fun r =>
        r.deletedAt.isNone && r.name.isSome && r.name == m.name) then
    Except.error StoreErr.gormDuplicatedKey
  else
    Except.ok { s with authProviders := s.authProviders ++ [m] }

/-! ### Transaction manager (`transaction_manager.go`,
`internal/repository` context helpers)

`context.Context` is modelled by the single capability the embedded code
reads from it: the optional transaction handle stored under
`repository.TxKey`.  The handle itself (`*gorm.DB` / `repository.DB`) is
opaque to the embedded logic, so it is represented by a bare `Nat` tag;
the data effects of repository calls made under a transaction are carried
by explicit `DBState` threading through the callback, which is exactly
the dispatch `GetDB(ctx, db)` performs in Go. -/

/-- `context.Context`, reduced to the value stored under
`repository.TxKey`. -/
structure GoContext where
  tx : Option Nat := none
  deriving DecidableEq, Repr

/-- `repository.GetTransactionFromContext`. -/
def GetTransactionFromContext (ctx : GoContext) : Option Nat := ctx.tx

/-- `repository.SetTransactionInContext`. -/
def SetTransactionInContext (ctx : GoContext) (tx : Nat) : GoContext :=
  { ctx with tx := some tx }

/-- `transactionManager.IsInTransaction`. -/
def IsInTransaction (ctx : GoContext) : Bool :=
  (GetTransactionFromContext ctx).isSome

/-- Modelled from the spec: the commit/rollback semantics of the
underlying database transaction started by gorm's `db.Transaction` (the
external storage engine, not in src).  The callback's writes are kept
when it returns no error (commit) and discarded when it returns an error
(rollback), "and the same error is propagated to the caller unchanged".
The callback returns the state as written so far together with its
optional error, so a callback failing halfway reports its partial
writes — which rollback discards. -/
def dbTransaction {ε : Type} (s : DBState)
    (body : DBState → DBState × Option ε) : DBState × Option ε :=
  match body s with
  | (s2, none) => (s2, none)
  | (_, some e) => (s, some e)

/-- `transactionManager.WithTransaction`: if the context already carries
a transaction, the function is invoked directly on that context;
otherwise a new database transaction is opened and the function runs on a
derived context carrying its handle (the handle tag `1` stands for the
fresh `tx repository.DB` value). -/
def withTransaction {ε : Type} (ctx : GoContext) (s : DBState)
    (fn : GoContext → DBState → DBState × Option ε) : DBState × Option ε :=
  if IsInTransaction ctx then fn ctx s
  else dbTransaction s (fun s0 => fn (SetTransactionInContext ctx 1) s0)

/-- `transactionManager.CommitTransaction`.  The underlying
`dbTx.Commit()` of the opaque handle is the external collaborator
`commitImpl` (its error text, if any); the `tx.(repository.DB)` type
assertion cannot fail in the typed model.  Returns the Go `error` (`none`
= nil). -/
def CommitTransaction (commitImpl : Nat → Option String) (ctx : GoContext) :
    Option GoErr :=
  match GetTransactionFromContext ctx with
  | none => some (GoErr.str "no active transaction to commit")
  | some h =>
    match commitImpl h with
    | some msg => some (GoErr.str ("failed to commit transaction: " ++ msg))
    | none => none

/-- `transactionManager.RollbackTransaction`. -/
def RollbackTransaction (rollbackImpl : Nat → Option String) (ctx : GoContext) :
    Option GoErr :=
  match GetTransactionFromContext ctx with
  | none => some (GoErr.str "no active transaction to rollback")
  | some h =>
    match rollbackImpl h with
    | some msg => some (GoErr.str ("failed to rollback transaction: " ++ msg))
    | none => none

/-! ### Authentication service (`internal/service/auth_service.go`)

External collaborators are passed in as pure functions: bcrypt hashing
(`security.PasswordHasher.Hash`, assumed not to fail) and verification
(`IsValidPassword`).  JWT token issuance happens after both embedded
flows have committed their persisted effects and has no effect on the
store, so the embedded flows return the `domain.User` of the response and
leave token strings to the excluded collaborator. -/

/-- `service.EmailPasswordProviderName`. -/
def EmailPasswordProviderName : String := "email-password"

/-- `AuthService.Login`: provider lookup, credential lookup by email
(`domain.ErrNotFound` mapped to `appErrors.ErrInvalidCredentials`),
password verification (mismatch mapped to the same
`appErrors.ErrInvalidCredentials`), then the user lookup. -/
def login (isValidPassword : String → String → Bool) (s : DBState)
    (email password : String) : Except GoErr User :=
  match authProviderFindByName s EmailPasswordProviderName with
  | Except.error e =>
    Except.error (wrapErr e ErrCode.internal "Failed to find auth provider" 500)
  | Except.ok none =>
    Except.error (GoErr.app ErrCode.internal "Authentication provider not configured" 500 none)
  | Except.ok (some provider) =>
    match userAuthFindByCredentialID s email provider.id with
    | Except.error e =>
      if e == StoreErr.notFound then Except.error ErrInvalidCredentials
      else Except.error (wrapErr e ErrCode.internal "Failed to find user auth" 500)
    | Except.ok userAuth =>
      if !(isValidPassword userAuth.credentialSecret password) then
        Except.error ErrInvalidCredentials
      else
        match userFindByID s userAuth.userId with
        | Except.error e =>
          Except.error (wrapErr e ErrCode.internal "Failed to find user" 500)
        | Except.ok user => Except.ok user

/-- The `WithTransaction` callback of `AuthService.Register`: create the
user (`domain.NewUser(fullName, email)` — the email doubles as the phone
number), then create the linked `repository.UserAuth`; each failure is
wrapped and returned, which triggers rollback. -/
def registerTxBody (s0 : DBState) (fullName email hashedPassword : String)
    (providerId uid aid now : Nat) : DBState × Option GoErr :=
  let user := NewUser fullName email uid now
  match userCreate s0 user with
  | Except.error e => (s0, some (wrapErr e ErrCode.internal "Failed to create user" 500))
  | Except.ok s1 =>
    match userAuthCreate s1
        { id := aid, userId := user.id, authProviderId := providerId,
          credentialId := email, credentialSecret := hashedPassword,
          credentialRefresh := none } now with
    | Except.error e => (s1, some (wrapErr e ErrCode.internal "Failed to create user auth" 500))
    | Except.ok s2 => (s2, none)

/-- `AuthService.Register`: provider lookup (a `none` provider means
"Authentication provider not configured"), existing-email check, password
hashing, then the transactional creation of the user and its credential
link.  `uuid.New()` for the user and the user_auth row and `time.Now()`
are the oracle inputs `uid`, `aid`, `now`.  Returns the resulting
database state and the created user (token issuance excluded as above). -/
def register (hash : String → String) (ctx : GoContext) (s : DBState)
    (fullName email password : String) (uid aid now : Nat) :
    DBState × Except GoErr User :=
  match authProviderFindByName s EmailPasswordProviderName with
  | Except.error e =>
    (s, Except.error (wrapErr e ErrCode.internal "Failed to find auth provider" 500))
  | Except.ok none =>
    (s, Except.error (GoErr.app ErrCode.internal "Authentication provider not configured" 500 none))
  | Except.ok (some provider) =>
    match userAuthFindByCredentialID s email provider.id with
    | Except.ok _ => (s, Except.error ErrEmailAlreadyExists)
    | Except.error e =>
      if !(e == StoreErr.notFound) then
        (s, Except.error (wrapErr e ErrCode.internal "Failed to check existing email" 500))
      else
        let hashedPassword := hash password
        match withTransaction ctx s
            (fun _txCtx s0 => registerTxBody s0 fullName email hashedPassword provider.id uid aid now) with
        | (s2, none) => (s2, Except.ok (NewUser fullName email uid now))
        | (s2, some e) => (s2, Except.error e)

/-! ### Shared helper lemmas -/

/-- A list on which every element falsifies `p` has no `find?` hit. -/
theorem find?_eq_none_of_all_not {α : Type} {l : List α} {p : α → Bool}
    (h : l.all (fun r => !p r) = true) : l.find? p = none := by
  rw [List.find?_eq_none]
  intro x hx
  have hx2 := List.all_eq_true.mp h x hx
  simp at hx2
  simp [hx2]

/-- A list on which every element falsifies `p` has no `any` hit. -/
theorem any_eq_false_of_all_not {α : Type} {l : List α} {p : α → Bool}
    (h : l.all (fun r => !p r) = true) : l.any p = false := by
  rw [List.any_eq_false]
  intro x hx
  have hx2 := List.all_eq_true.mp h x hx
  simp at hx2
  simp [hx2]

/-! ### C10 — auth-provider finders return `(nil, nil)` on a missing row -/

/-- C10: `authProviderRepositoryImpl.FindByName` and `FindByID` return a
`none` provider together with no error when no active matching provider
exists (and indeed never return an error at all in the modelled store),
unlike the other finders, which fail with `NotFound` (shown here for
`userRepositoryImpl.FindByID` on a missing user); `AuthService.Register`
relies on the `none` result to report "Authentication provider not
configured". -/
theorem authProvider_finders_nil_on_missing :
    ∀ (s : DBState) (name : String) (pid uid : Nat),
    (s.authProviders.all
        (fun r => !(r.deletedAt.isNone && r.name == some name)) = true →
      authProviderFindByName s name = Except.ok none)
    ∧ (s.authProviders.all
        (fun r => !(r.deletedAt.isNone && r.id == pid)) = true →
      authProviderFindByID s pid = Except.ok none)
    ∧ (∀ e, authProviderFindByName s name ≠ Except.error e)
    ∧ (s.users.all (fun r => !(r.deletedAt.isNone && r.id == uid)) = true →
      userFindByID s uid = Except.error StoreErr.notFound)
    ∧ (s.authProviders.all
        (fun r => !(r.deletedAt.isNone && r.name == some EmailPasswordProviderName)) = true →
      ∀ (hash : String → String) (ctx : GoContext)
        (fullName email password : String) (u a n : Nat),
        register hash ctx s fullName email password u a n
          = (s, Except.error (GoErr.app ErrCode.internal
              "Authentication provider not configured" 500 none))) := by
  intro s name pid uid
  refine ⟨fun h => ?_, fun h => ?_, fun e => ?_, fun h => ?_, fun h => ?_⟩
  · rw [authProviderFindByName, find?_eq_none_of_all_not h]
  · rw [authProviderFindByID, find?_eq_none_of_all_not h]
  · rw [authProviderFindByName]
    cases hf : s.authProviders.find?
        (fun r => r.deletedAt.isNone && r.name == some name) <;> simp
  · rw [userFindByID, find?_eq_none_of_all_not h]
  · intro hash ctx fullName email password u a n
    have hfind : authProviderFindByName s EmailPasswordProviderName = Except.ok none := by
      rw [authProviderFindByName, find?_eq_none_of_all_not h]
    rw [register, hfind]

/-- Witness for C10 on a concrete store with no providers and no users. -/
theorem authProvider_finders_nil_on_missing_witness :
    authProviderFindByName
        { users := [], authProviders := [], userAuths := [], moneyFlows := [] }
        "email-password" = Except.ok none
    ∧ (register (fun p => p) {}
        { users := [], authProviders := [], userAuths := [], moneyFlows := [] }
        "A" "a@x.com" "pw" 1 2 3).2
      = Except.error (GoErr.app ErrCode.internal
          "Authentication provider not configured" 500 none) := by
  constructor
  · exact (authProvider_finders_nil_on_missing
      { users := [], authProviders := [], userAuths := [], moneyFlows := [] }
      "email-password" 0 0).1 (by decide)
  · have h := ((((authProvider_finders_nil_on_missing
      { users := [], authProviders := [], userAuths := [], moneyFlows := [] }
      "email-password" 0 0).2).2).2).2 (by decide)
      (fun p => p) {} "A" "a@x.com" "pw" 1 2 3
    rw [h]

/-! ### C9 — manual commit/rollback fail with a programmer error
without an active transaction -/

/-- C9: with no transaction handle in the context,
`transactionManager.CommitTransaction` and `RollbackTransaction` fail
with `fmt.Errorf` programmer errors — not one of the domain errors
`NotFound`/`Conflict`/`Duplicate` — and with a handle present each
operates on exactly the handle found in the context (its outcome is the
underlying handle operation's outcome, wrapped on failure). -/
theorem manual_tx_programmer_errors :
    ∀ (commitImpl rollbackImpl : Nat → Option String) (ctx : GoContext),
    (GetTransactionFromContext ctx = none →
        CommitTransaction commitImpl ctx
          = some (GoErr.str "no active transaction to commit")
      ∧ RollbackTransaction rollbackImpl ctx
          = some (GoErr.str "no active transaction to rollback")
      ∧ (∀ e, CommitTransaction commitImpl ctx = some e → isDomainGoErr e = false)
      ∧ (∀ e, RollbackTransaction rollbackImpl ctx = some e → isDomainGoErr e = false))
    ∧ (∀ h, GetTransactionFromContext ctx = some h →
        (commitImpl h = none → CommitTransaction commitImpl ctx = none)
      ∧ (∀ m, commitImpl h = some m →
          CommitTransaction commitImpl ctx
            = some (GoErr.str ("failed to commit transaction: " ++ m)))
      ∧ (rollbackImpl h = none → RollbackTransaction rollbackImpl ctx = none)
      ∧ (∀ m, rollbackImpl h = some m →
          RollbackTransaction rollbackImpl ctx
            = some (GoErr.str ("failed to rollback transaction: " ++ m)))) := by
  intro commitImpl rollbackImpl ctx
  constructor
  · intro hnone
    refine ⟨?_, ?_, ?_, ?_⟩
    · rw [CommitTransaction, hnone]
    · rw [RollbackTransaction, hnone]
    · intro e he
      rw [CommitTransaction, hnone] at he
      cases he
      rfl
    · intro e he
      rw [RollbackTransaction, hnone] at he
      cases he
      rfl
  · intro h hsome
    refine ⟨fun hc => ?_, fun m hc => ?_, fun hr => ?_, fun m hr => ?_⟩
    · simp [CommitTransaction, hsome, hc]
    · simp [CommitTransaction, hsome, hc]
    · simp [RollbackTransaction, hsome, hr]
    · simp [RollbackTransaction, hsome, hr]

/-- Witness for C9: a context with no handle yields the programmer
errors; a context holding handle 3 commits through the handle
operation. -/
theorem manual_tx_programmer_errors_witness :
    CommitTransaction (fun _ => none) { tx := none }
      = some (GoErr.str "no active transaction to commit")
    ∧ isDomainGoErr (GoErr.str "no active transaction to commit") = false
    ∧ CommitTransaction (fun _ => none) { tx := some 3 } = none
    ∧ RollbackTransaction (fun _ => some "boom") { tx := some 3 }
      = some (GoErr.str ("failed to rollback transaction: " ++ "boom")) := by
  have h1 := (manual_tx_programmer_errors (fun _ => none) (fun _ => none)
    { tx := none }).1 rfl
  have h2 := (manual_tx_programmer_errors (fun _ => none) (fun _ => some "boom")
    { tx := some 3 }).2 3 rfl
  exact ⟨h1.1, h1.2.2.1 _ h1.1, h2.1 rfl, h2.2.2.2 "boom" rfl⟩

/-! ### C7 — `WithTransaction` reuses an active transaction -/

/-- C7: when the context already carries a transaction handle,
`transactionManager.WithTransaction` invokes the callback directly on
that very context — no new database transaction is entered — while with
no handle present it runs the callback inside a newly opened transaction
on a derived context carrying the fresh handle.  Consequently the
commit/rollback of a nested `WithTransaction` is deferred entirely to
the outermost caller: a callback that runs an inner `WithTransaction`
(whose own callback's writes "succeed") and then returns an error loses
the inner writes too, because only the outermost transaction ever
commits. -/
theorem withTransaction_reuse_active :
    (∀ (ε : Type) (ctx : GoContext) (s : DBState)
        (fn : GoContext → DBState → DBState × Option ε),
      IsInTransaction ctx = true → withTransaction ctx s fn = fn ctx s)
    ∧ (∀ (ε : Type) (ctx : GoContext) (s : DBState)
        (fn : GoContext → DBState → DBState × Option ε),
      IsInTransaction ctx = false →
        withTransaction ctx s fn
          = dbTransaction s (fun s0 => fn (SetTransactionInContext ctx 1) s0))
    ∧ (∀ (s : DBState) (g : GoContext → DBState → DBState × Option GoErr) (e : GoErr),
      withTransaction { tx := none } s
          (fun c s0 => ((withTransaction c s0 g).1, some e))
        = (s, some e)) := by
  refine ⟨fun ε ctx s fn h => ?_, fun ε ctx s fn h => ?_, fun s g e => ?_⟩
  · rw [withTransaction, if_pos h]
  · rw [withTransaction, if_neg (by simp [h])]
  · simp [withTransaction, dbTransaction, IsInTransaction,
      GetTransactionFromContext, SetTransactionInContext]

/-- Witness for C7: with handle 5 already in the context the callback
receives that same context (here it reports the handle it observed in
the `httpStatus` slot of its error). -/
theorem withTransaction_reuse_active_witness :
    withTransaction { tx := some 5 }
        { users := [], authProviders := [], userAuths := [], moneyFlows := [] }
        (fun c s => (s, some (GoErr.app ErrCode.internal "seen" (c.tx.getD 0) none)))
      = ({ users := [], authProviders := [], userAuths := [], moneyFlows := [] },
         some (GoErr.app ErrCode.internal "seen" 5 none)) := by
  rw [withTransaction_reuse_active.1 GoErr { tx := some 5 } _ _ rfl]
  rfl

/-! ### C2 — a failing transactional callback rolls back all writes and
propagates the same error -/

/-- C2: if the callback given to `WithTransaction` (entered with no
transaction already active) returns an error after making some writes,
the resulting observable state is exactly the initial state — so no
subsequent read (`FindByID`, `FindByPhoneNumber`,
`FindByCredentialID`, `List`) can observe any of the callback's
writes — and the very error value the callback returned is what
`WithTransaction` returns. -/
theorem withTransaction_rollback_propagates :
    ∀ (ε : Type) (ctx : GoContext) (s s1 : DBState)
      (fn : GoContext → DBState → DBState × Option ε) (e : ε),
    IsInTransaction ctx = false →
    fn (SetTransactionInContext ctx 1) s = (s1, some e) →
    withTransaction ctx s fn = (s, some e)
    ∧ (∀ id, userFindByID (withTransaction ctx s fn).1 id = userFindByID s id)
    ∧ (∀ phone, userFindByPhoneNumber (withTransaction ctx s fn).1 phone
        = userFindByPhoneNumber s phone)
    ∧ (∀ cid pid, userAuthFindByCredentialID (withTransaction ctx s fn).1 cid pid
        = userAuthFindByCredentialID s cid pid)
    ∧ (∀ limit offset, userList (withTransaction ctx s fn).1 limit offset
        = userList s limit offset) := by
  intro ε ctx s s1 fn e hno hfn
  have hmain : withTransaction ctx s fn = (s, some e) := by
    rw [withTransaction, if_neg (by simp [hno]), dbTransaction, hfn]
  exact ⟨hmain, fun _ => by rw [hmain], fun _ => by rw [hmain],
    fun _ _ => by rw [hmain], fun _ _ => by rw [hmain]⟩

/-- The store state of the C2 witness scenario: the email-password
provider (id 7), one registered user (id 1) and their credential link
(row id 2). -/
def wit2State : DBState :=
  { users := [NewUser "Alice" "a@x.com" 1 10],
    authProviders :=
      [{ id := 7, displayName := "Email & Password", name := some "email-password",
         image := none, clientId := none, clientSecret := none,
         version := 0, createdAt := 0, updatedAt := 0, deletedAt := none }],
    userAuths :=
      [userAuthDomainToModel
        { id := 2, userId := 1, authProviderId := 7, credentialId := "a@x.com",
          credentialSecret := "hpw", credentialRefresh := none } 10],
    moneyFlows := [] }

/-- The C2 witness callback: the `Register` transaction body for a new
user "Bob", where the credential-link insert is forced to fail (its row
id 2 collides with the existing user_auth row's primary key), after the
user row for "Bob" was already written. -/
def wit2Body (_c : GoContext) (s0 : DBState) : DBState × Option GoErr :=
  registerTxBody s0 "Bob" "b@x.com" "hpw2" 7 3 2 11

/-- Witness for C2, the spec's registration scenario: the credential-link
creation fails after the user row was created; the user row is rolled
back (a lookup of Bob's phone/email afterwards fails with `NotFound`) and
the callback's wrapped error is returned unchanged. -/
theorem withTransaction_rollback_propagates_witness :
    withTransaction {} wit2State wit2Body
      = (wit2State,
         some (GoErr.app ErrCode.internal "Failed to create user auth" 500
           (some StoreErr.gormDuplicatedKey)))
    ∧ userFindByPhoneNumber (withTransaction {} wit2State wit2Body).1 "b@x.com"
      = Except.error StoreErr.notFound := by
  have h := withTransaction_rollback_propagates GoErr {} wit2State
    (registerTxBody wit2State "Bob" "b@x.com" "hpw2" 7 3 2 11).1 wit2Body
    (GoErr.app ErrCode.internal "Failed to create user auth" 500
      (some StoreErr.gormDuplicatedKey))
    rfl (by decide)
  refine ⟨h.1, ?_⟩
  rw [h.2.2.1 "b@x.com"]
  decide

/-! ### C8 — login's invalid-credentials outcome is undifferentiated -/

/-- C8: `AuthService.Login` returns the one predefined
`appErrors.ErrInvalidCredentials` value both when no credential record
exists for the email (the lookup's `NotFound` case) and when the record
exists but the password does not verify, so the two failure modes are
indistinguishable from the result: the outcomes of the two runs are
equal. -/
theorem login_undifferentiated_invalid_credentials :
    ∀ (check1 check2 : String → String → Bool) (s1 s2 : DBState)
      (email1 email2 pw1 pw2 : String) (p1 p2 : AuthProvider) (ua : UserAuth),
    authProviderFindByName s1 EmailPasswordProviderName = Except.ok (some p1) →
    userAuthFindByCredentialID s1 email1 p1.id = Except.error StoreErr.notFound →
    authProviderFindByName s2 EmailPasswordProviderName = Except.ok (some p2) →
    userAuthFindByCredentialID s2 email2 p2.id = Except.ok ua →
    check2 ua.credentialSecret pw2 = false →
    login check1 s1 email1 pw1 = Except.error ErrInvalidCredentials
    ∧ login check2 s2 email2 pw2 = Except.error ErrInvalidCredentials
    ∧ login check1 s1 email1 pw1 = login check2 s2 email2 pw2 := by
  intro check1 check2 s1 s2 email1 email2 pw1 pw2 p1 p2 ua hp1 hna hp2 hua hchk
  have h1 : login check1 s1 email1 pw1 = Except.error ErrInvalidCredentials := by
    rw [login, hp1]
    simp [hna]
  have h2 : login check2 s2 email2 pw2 = Except.error ErrInvalidCredentials := by
    rw [login, hp2]
    simp [hua, hchk]
  exact ⟨h1, h2, by rw [h1, h2]⟩

/-- The store of the C8 witness: provider 7 plus one credential link for
"a@x.com" whose secret is "hpw". -/
def wit8State : DBState := wit2State

/-- Witness for C8: looking up the unknown email "ghost@x.com" and
failing the password check for the existing "a@x.com" produce the same
`ErrInvalidCredentials` outcome. -/
theorem login_undifferentiated_invalid_credentials_witness :
    login (fun h p => h == "h" ++ p) wit8State "ghost@x.com" "pw"
      = Except.error ErrInvalidCredentials
    ∧ login (fun h p => h == "h" ++ p) wit8State "a@x.com" "wrong"
      = Except.error ErrInvalidCredentials
    ∧ login (fun h p => h == "h" ++ p) wit8State "ghost@x.com" "pw"
      = login (fun h p => h == "h" ++ p) wit8State "a@x.com" "wrong" := by
  exact login_undifferentiated_invalid_credentials
    (fun h p => h == "h" ++ p) (fun h p => h == "h" ++ p) wit8State wit8State
    "ghost@x.com" "a@x.com" "pw" "wrong"
    { id := 7, displayName := "Email & Password", name := some "email-password",
      image := none, clientId := none, clientSecret := none }
    { id := 7, displayName := "Email & Password", name := some "email-password",
      image := none, clientId := none, clientSecret := none }
    { id := 2, userId := 1, authProviderId := 7, credentialId := "a@x.com",
      credentialSecret := "hpw", credentialRefresh := none }
    (by decide) (by decide) (by decide) (by decide) (by decide)

/-! ### Delete helper lemmas -/

/-- `userDelete` fails with `NotFound` exactly when no active row has the
id. -/
theorem userDelete_notfound_iff (s : DBState) (id now : Nat) :
    userDelete s id now = Except.error StoreErr.notFound
      ↔ s.users.countP (fun r => r.deletedAt.isNone && r.id == id) = 0 := by
  by_cases h : s.users.countP (fun r => r.deletedAt.isNone && r.id == id) = 0
  · simp [userDelete, h]
  · simp [userDelete, h]

/-- The users table after a successful `userDelete`. -/
theorem userDelete_ok_users {s s' : DBState} {id now : Nat}
    (h : userDelete s id now = Except.ok s') :
    s'.users = s.users.map (fun r =>
      if r.deletedAt.isNone && r.id == id then
        { r with deletedAt := some now, updatedAt := now } else r) := by
  by_cases hc : s.users.countP (fun r => r.deletedAt.isNone && r.id == id) = 0
  · simp [userDelete, hc] at h
  · simp [userDelete, hc] at h
    rw [← h]
    simp

/-- After a successful `userDelete id`, every users row carrying that id
is soft-deleted. -/
theorem userDelete_id_dead {s s' : DBState} {id now : Nat}
    (h : userDelete s id now = Except.ok s') :
    ∀ r ∈ s'.users, r.id = id → r.deletedAt ≠ none := by
  rw [userDelete_ok_users h]
  intro r hr hid
  obtain ⟨r0, hr0, hr0eq⟩ := List.mem_map.mp hr
  by_cases hm : (r0.deletedAt.isNone && r0.id == id) = true
  · rw [if_pos hm] at hr0eq
    rw [← hr0eq]
    simp
  · rw [if_neg hm] at hr0eq
    subst hr0eq
    simp only [Bool.and_eq_true, beq_iff_eq] at hm
    intro hdead
    exact hm ⟨by simp [hdead], hid⟩

/-- `moneyFlowDelete` fails with `NotFound` exactly when no active row
has the id. -/
theorem moneyFlowDelete_notfound_iff (s : DBState) (id now : Nat) :
    moneyFlowDelete s id now = Except.error StoreErr.notFound
      ↔ s.moneyFlows.countP (fun r => r.deletedAt.isNone && r.id == id) = 0 := by
  by_cases h : s.moneyFlows.countP (fun r => r.deletedAt.isNone && r.id == id) = 0
  · simp [moneyFlowDelete, h]
  · simp [moneyFlowDelete, h]

/-- The money_flows table after a successful `moneyFlowDelete`. -/
theorem moneyFlowDelete_ok_rows {s s' : DBState} {id now : Nat}
    (h : moneyFlowDelete s id now = Except.ok s') :
    s'.moneyFlows = s.moneyFlows.map (fun r =>
      if r.deletedAt.isNone && r.id == id then
        { r with deletedAt := some now, updatedAt := now } else r) := by
  by_cases hc : s.moneyFlows.countP (fun r => r.deletedAt.isNone && r.id == id) = 0
  · simp [moneyFlowDelete, hc] at h
  · simp [moneyFlowDelete, hc] at h
    rw [← h]
    simp

/-! ### C6 — `Delete` soft-deletes (deleted_at and updated_at, not
version-gated) and maps zero affected rows to `NotFound` -/

/-- C6: `Delete(id)` on the users and money_flows stores rewrites the
targeted active rows setting both `deleted_at` and `updated_at`; it fails
with `NotFound` exactly when zero rows are affected (no active row has
the id — the id is absent or already soft-deleted); and the row
predicate never consults the version: rewriting every stored version
arbitrarily changes nothing about whether the delete succeeds. -/
theorem delete_soft_sets_fields_notfound :
    (∀ (s : DBState) (id now : Nat),
      (userDelete s id now = Except.error StoreErr.notFound
        ↔ s.users.countP (fun r => r.deletedAt.isNone && r.id == id) = 0)
      ∧ (∀ s', userDelete s id now = Except.ok s' →
          s'.users = s.users.map (fun r =>
            if r.deletedAt.isNone && r.id == id then
              { r with deletedAt := some now, updatedAt := now } else r)))
    ∧ (∀ (s : DBState) (id now : Nat),
      (moneyFlowDelete s id now = Except.error StoreErr.notFound
        ↔ s.moneyFlows.countP (fun r => r.deletedAt.isNone && r.id == id) = 0)
      ∧ (∀ s', moneyFlowDelete s id now = Except.ok s' →
          s'.moneyFlows = s.moneyFlows.map (fun r =>
            if r.deletedAt.isNone && r.id == id then
              { r with deletedAt := some now, updatedAt := now } else r)))
    ∧ (∀ (s : DBState) (id now : Nat) (f : User → Int),
        (userDelete
            { s with users := s.users.map (fun r => { r with version := f r }) }
            id now = Except.error StoreErr.notFound)
        ↔ userDelete s id now = Except.error StoreErr.notFound) := by
  refine ⟨fun s id now => ⟨userDelete_notfound_iff s id now,
      fun s' h => userDelete_ok_users h⟩,
    fun s id now => ⟨moneyFlowDelete_notfound_iff s id now,
      fun s' h => moneyFlowDelete_ok_rows h⟩,
    fun s id now f => ?_⟩
  rw [userDelete_notfound_iff, userDelete_notfound_iff]
  simp [List.countP_map, Function.comp]

/-- The witness store after soft-deleting user 1 at time 20. -/
def wit2StateDeleted : DBState :=
  { wit2State with
    users := [{ NewUser "Alice" "a@x.com" 1 10 with
                  deletedAt := some 20, updatedAt := 20 }] }

/-- Witness for C6: deleting user 1 of the witness store marks its row
with `deleted_at = updated_at = 20`; deleting a missing id fails with
`NotFound`. -/
theorem delete_soft_sets_fields_notfound_witness :
    wit2StateDeleted.users
      = wit2State.users.map (fun r =>
          if r.deletedAt.isNone && r.id == 1 then
            { r with deletedAt := some 20, updatedAt := 20 } else r)
    ∧ (userDelete wit2State 99 20 = Except.error StoreErr.notFound) := by
  constructor
  · have h : userDelete wit2State 1 20 = Except.ok wit2StateDeleted := by decide
    exact (delete_soft_sets_fields_notfound.1 wit2State 1 20).2 wit2StateDeleted h
  · rw [(delete_soft_sets_fields_notfound.1 wit2State 99 20).1]
    decide

/-! ### C4 — soft-deleted rows are invisible to every default read -/

/-- Any row returned by `userList` is an active member of the users
table. -/
theorem userList_mem {s : DBState} {limit offset : Nat} {r : User}
    (h : r ∈ userList s limit offset) :
    r ∈ s.users ∧ r.deletedAt = none := by
  unfold userList at h
  have h1 := List.drop_subset _ _ (List.take_subset _ _ h)
  rw [List.mem_mergeSort] at h1
  have h2 := List.mem_filter.mp h1
  exact ⟨h2.1, by simpa using h2.2⟩

/-- C4: after `Delete(id)` succeeds on a user, `FindByID(id)` fails with
`NotFound`; `FindByPhoneNumber` of the deleted row's phone number fails
with `NotFound` (when that row was the only active holder of the
number); `List` never includes a row with that id; and, over any store
state whatsoever, every default read path (`FindByID`,
`FindByPhoneNumber`, `List`) only ever returns rows whose `deleted_at`
is null. -/
theorem soft_delete_invisibility :
    (∀ (s s' : DBState) (id now : Nat),
      userDelete s id now = Except.ok s' →
      userFindByID s' id = Except.error StoreErr.notFound
      ∧ (∀ key, (∀ r ∈ s.users, r.deletedAt = none → r.phoneNumber = key → r.id = id) →
          userFindByPhoneNumber s' key = Except.error StoreErr.notFound)
      ∧ (∀ limit offset r, r ∈ userList s' limit offset → r.id ≠ id))
    ∧ (∀ (s : DBState) (id : Nat) (r : User),
        userFindByID s id = Except.ok r → r.deletedAt = none)
    ∧ (∀ (s : DBState) (key : String) (r : User),
        userFindByPhoneNumber s key = Except.ok r → r.deletedAt = none)
    ∧ (∀ (s : DBState) (limit offset : Nat) (r : User),
        r ∈ userList s limit offset → r.deletedAt = none) := by
  refine ⟨fun s s' id now hdel => ?_, fun s id r h => ?_, fun s key r h => ?_,
    fun s limit offset r h => (userList_mem h).2⟩
  · have hdead := userDelete_id_dead hdel
    refine ⟨?_, fun key hkey => ?_, fun limit offset r hr => ?_⟩
    · rw [userFindByID]
      have hnone : s'.users.find? (fun r => r.deletedAt.isNone && r.id == id) = none := by
        rw [List.find?_eq_none]
        intro r hr hp
        simp only [Bool.and_eq_true, beq_iff_eq, Option.isNone_iff_eq_none] at hp
        exact hdead r hr hp.2 hp.1
      rw [hnone]
    · rw [userFindByPhoneNumber]
      have hshape := userDelete_ok_users hdel
      have hnone : s'.users.find?
          (fun r => r.deletedAt.isNone && r.phoneNumber == key) = none := by
        rw [List.find?_eq_none]
        intro r hr hp
        simp only [Bool.and_eq_true, beq_iff_eq, Option.isNone_iff_eq_none] at hp
        rw [hshape] at hr
        obtain ⟨r0, hr0, hr0eq⟩ := List.mem_map.mp hr
        by_cases hm : (r0.deletedAt.isNone && r0.id == id) = true
        · rw [if_pos hm] at hr0eq
          rw [← hr0eq] at hp
          simp at hp
        · rw [if_neg hm] at hr0eq
          subst hr0eq
          have hid := hkey r0 hr0 hp.1 hp.2
          simp only [Bool.and_eq_true, beq_iff_eq, Option.isNone_iff_eq_none] at hm
          exact hm ⟨hp.1, hid⟩
      rw [hnone]
    · intro hid
      have hm := userList_mem hr
      exact hdead r hm.1 hid hm.2
  · rw [userFindByID] at h
    cases hf : s.users.find? (fun r => r.deletedAt.isNone && r.id == id) with
    | none => rw [hf] at h; cases h
    | some a =>
      rw [hf] at h
      cases h
      have := List.find?_some hf
      simp only [Bool.and_eq_true, Option.isNone_iff_eq_none] at this
      exact this.1
  · rw [userFindByPhoneNumber] at h
    cases hf : s.users.find? (fun r => r.deletedAt.isNone && r.phoneNumber == key) with
    | none => rw [hf] at h; cases h
    | some a =>
      rw [hf] at h
      cases h
      have := List.find?_some hf
      simp only [Bool.and_eq_true, Option.isNone_iff_eq_none] at this
      exact this.1

/-- Witness for C4: after deleting user 1, looking it up by id or by its
phone number fails with `NotFound`. -/
theorem soft_delete_invisibility_witness :
    userFindByID wit2StateDeleted 1 = Except.error StoreErr.notFound
    ∧ userFindByPhoneNumber wit2StateDeleted "a@x.com"
      = Except.error StoreErr.notFound := by
  have hmain := soft_delete_invisibility.1 wit2State wit2StateDeleted 1 20 (by decide)
  exact ⟨hmain.1, hmain.2.1 "a@x.com" (by decide)⟩

/-! ### C5 — `Create` inserts at version 0 and enforces the natural key
among active rows only -/

/-- C5: `userRepositoryImpl.Create` fails with
`domain.ErrDuplicatePhoneNumber` whenever some active (non-deleted) row
already carries the entity's phone number; when every row carrying that
phone number is soft-deleted (and the generated id is fresh) it always
succeeds, appending the entity verbatim — in particular an entity built
by `domain.NewUser` is inserted with `version = 0`. -/
theorem create_uniqueness_protocol :
    ∀ (s : DBState) (u : User),
    (s.users.any (fun r => r.deletedAt.isNone && r.phoneNumber == u.phoneNumber) = true →
      userCreate s u = Except.error StoreErr.duplicatePhoneNumber)
    ∧ (s.users.all (fun r => !(r.id == u.id)) = true →
      s.users.all (fun r => !(r.deletedAt.isNone && r.phoneNumber == u.phoneNumber)) = true →
      userCreate s u = Except.ok { s with users := s.users ++ [u] })
    ∧ (∀ fullName phone uid now, (NewUser fullName phone uid now).version = 0) := by
  intro s u
  refine ⟨fun h => ?_, fun hid hph => ?_, fun _ _ _ _ => rfl⟩
  · rw [userCreate, if_pos (by rw [h, Bool.or_true])]
  · rw [userCreate,
      if_neg (by rw [any_eq_false_of_all_not hid, any_eq_false_of_all_not hph]; simp)]

/-- Witness for C5: in a store whose only row with phone "+111" is
soft-deleted, creating a fresh user with phone "+111" succeeds and its
row starts at version 0; in a store where that row is active, the same
create fails with `Duplicate`. -/
theorem create_uniqueness_protocol_witness :
    userCreate
        { users := [{ NewUser "Old" "+111" 1 5 with deletedAt := some 9 }],
          authProviders := [], userAuths := [], moneyFlows := [] }
        (NewUser "Fresh" "+111" 2 10)
      = Except.ok
          { users := [{ NewUser "Old" "+111" 1 5 with deletedAt := some 9 },
                      NewUser "Fresh" "+111" 2 10],
            authProviders := [], userAuths := [], moneyFlows := [] }
    ∧ (NewUser "Fresh" "+111" 2 10).version = 0
    ∧ userCreate
        { users := [NewUser "Old" "+111" 1 5],
          authProviders := [], userAuths := [], moneyFlows := [] }
        (NewUser "Fresh" "+111" 2 10)
      = Except.error StoreErr.duplicatePhoneNumber := by
  refine ⟨?_, ?_, ?_⟩
  · exact (create_uniqueness_protocol
      { users := [{ NewUser "Old" "+111" 1 5 with deletedAt := some 9 }],
        authProviders := [], userAuths := [], moneyFlows := [] }
      (NewUser "Fresh" "+111" 2 10)).2.1 (by decide) (by decide)
  · exact (create_uniqueness_protocol
      { users := [], authProviders := [], userAuths := [], moneyFlows := [] }
      (NewUser "Fresh" "+111" 2 10)).2.2 "Fresh" "+111" 2 10
  · exact (create_uniqueness_protocol
      { users := [NewUser "Old" "+111" 1 5],
        authProviders := [], userAuths := [], moneyFlows := [] }
      (NewUser "Fresh" "+111" 2 10)).1 (by decide)

/-! ### Generic lemmas about keyed conditional updates on a table -/

/-- In a list whose keys are pairwise distinct, a predicate that pins the
key to one value matches at most one element (an UPDATE whose WHERE
clause fixes the primary key affects at most one row). -/
theorem countP_le_one_of_nodup_key {α : Type} (l : List α) (p : α → Bool)
    (key : α → Nat) (k : Nat)
    (hnd : (l.map key).Nodup) (hp : ∀ r, p r = true → key r = k) :
    l.countP p ≤ 1 := by
  induction l with
  | nil => simp
  | cons a t ih =>
    rw [List.map_cons, List.nodup_cons] at hnd
    by_cases hpa : p a = true
    · have ht : t.countP p = 0 := by
        rw [List.countP_eq_zero]
        intro b hb hpb
        have hkb : key b = key a := by rw [hp b hpb, hp a hpa]
        exact hnd.1 (hkb ▸ List.mem_map_of_mem key hb)
      rw [List.countP_cons_of_pos p t hpa, ht]
    · rw [List.countP_cons_of_neg p t (by simp [hpa])]
      exact ih hnd.2

/-- Rewriting the matching rows of a keyed table with a key-preserving
function: the looked-up entry had the expected old attribute before and
carries the new attribute after.  `key` is the lookup key (fixed to `k`
by the match predicate `p`), `ver` the observed attribute, `f` the SET
application. -/
theorem find?_attr_of_update {α : Type} (key : α → Nat) (ver : α → Int)
    (p : α → Bool) (f : α → α) (k : Nat) (v0 v1 : Int) :
    ∀ l : List α,
    (l.map key).Nodup →
    l.countP p ≠ 0 →
    (∀ r, p r = true → key r = k) →
    (∀ r, p r = true → ver r = v0) →
    (∀ r, key (f r) = key r) →
    (∀ r, p r = true → ver (f r) = v1) →
    (l.find? (fun r => key r == k)).map ver = some v0
    ∧ ((l.map (fun r => if p r then f r else r)).find? (fun r => key r == k)).map ver
        = some v1 := by
  intro l
  induction l with
  | nil => intro _ hc; simp at hc
  | cons a t ih =>
    intro hnd hc hpk hpv hfk hfv
    rw [List.map_cons, List.nodup_cons] at hnd
    by_cases hpa : p a = true
    · have hka : (key a == k) = true := by simp [hpk a hpa]
      refine ⟨?_, ?_⟩
      · rw [List.find?_cons_of_pos (p := fun r => key r == k) t hka]
        simp [hpv a hpa]
      · rw [List.map_cons, if_pos hpa,
          List.find?_cons_of_pos (p := fun r => key r == k) _
            (by simp [hfk, hpk a hpa])]
        simp [hfv a hpa]
    · by_cases hka : key a = k
      · exfalso
        have ht : t.countP p = 0 := by
          rw [List.countP_eq_zero]
          intro b hb hpb
          have hkb : key b = key a := by rw [hpk b hpb, hka]
          exact hnd.1 (hkb ▸ List.mem_map_of_mem key hb)
        rw [List.countP_cons_of_neg p t (by simp [hpa]), ht] at hc
        exact hc rfl
      · have hc' : t.countP p ≠ 0 := by
          rwa [List.countP_cons_of_neg p t (by simp [hpa])] at hc
        have iht := ih hnd.2 hc' hpk hpv hfk hfv
        refine ⟨?_, ?_⟩
        · rw [List.find?_cons_of_neg (p := fun r => key r == k) t (by simp [hka])]
          exact iht.1
        · rw [List.map_cons, if_neg hpa,
            List.find?_cons_of_neg (p := fun r => key r == k) _ (by simp [hka])]
          exact iht.2

/-- A conditional rewrite with a key-preserving SET leaves the key column
of the table unchanged. -/
theorem map_key_of_update {α β : Type} (key : α → β) (p : α → Bool) (f : α → α)
    (hfk : ∀ r, key (f r) = key r) (l : List α) :
    (l.map (fun r => if p r then f r else r)).map key = l.map key := by
  induction l with
  | nil => rfl
  | cons a t ih =>
    by_cases hpa : p a = true
    · simp [hpa, hfk, ih]
    · simp [hpa, ih]

/-! ### Shape lemmas for the three Update implementations -/

/-- A successful `userUpdate` means the WHERE clause matched at least one
row and the users table is rewritten by the SET clause on the matching
rows. -/
theorem userUpdate_ok_shape {s s' : DBState} {u : User}
    (h : userUpdate s u = Except.ok s') :
    s.users.countP (fun r => userUpdateMatch u r) ≠ 0
    ∧ s'.users = s.users.map (fun r =>
        if userUpdateMatch u r then userApplyUpdate u r else r) := by
  by_cases hc : s.users.countP (fun r => userUpdateMatch u r) = 0
  · simp [userUpdate, hc] at h
  · by_cases hd : (s.users.any fun r =>
        r.deletedAt.isNone && r.id != u.id && r.phoneNumber == u.phoneNumber) = true
    · simp [userUpdate, hc, hd] at h
    · simp [userUpdate, hc, hd] at h
      exact ⟨hc, by rw [← h]⟩

/-- `userUpdate` returns `Conflict` exactly when the version-gated WHERE
clause matches no row (given the SET causes no unique violation). -/
theorem userUpdate_conflict_iff {s : DBState} {u : User}
    (hdup : (s.users.any fun r =>
      r.deletedAt.isNone && r.id != u.id && r.phoneNumber == u.phoneNumber) = false) :
    userUpdate s u = Except.error StoreErr.conflict
      ↔ s.users.countP (fun r => userUpdateMatch u r) = 0 := by
  by_cases hc : s.users.countP (fun r => userUpdateMatch u r) = 0
  · simp [userUpdate, hc, hdup]
  · simp [userUpdate, hc, hdup]

/-- A successful `moneyFlowUpdate`: WHERE matched, table rewritten by the
SET clause. -/
theorem moneyFlowUpdate_ok_shape {s s' : DBState} {mf : MoneyFlow}
    (h : moneyFlowUpdate s mf = Except.ok s') :
    s.moneyFlows.countP (fun r => moneyFlowUpdateMatch mf r) ≠ 0
    ∧ s'.moneyFlows = s.moneyFlows.map (fun r =>
        if moneyFlowUpdateMatch mf r then moneyFlowApplyUpdate mf r else r) := by
  by_cases hc : s.moneyFlows.countP (fun r => moneyFlowUpdateMatch mf r) = 0
  · simp [moneyFlowUpdate, hc] at h
  · simp [moneyFlowUpdate, hc] at h
    exact ⟨hc, by rw [← h]⟩

/-- `moneyFlowUpdate` returns `Conflict` exactly when the version-gated
WHERE clause matches no row. -/
theorem moneyFlowUpdate_conflict_iff (s : DBState) (mf : MoneyFlow) :
    moneyFlowUpdate s mf = Except.error StoreErr.conflict
      ↔ s.moneyFlows.countP (fun r => moneyFlowUpdateMatch mf r) = 0 := by
  by_cases hc : s.moneyFlows.countP (fun r => moneyFlowUpdateMatch mf r) = 0
  · simp [moneyFlowUpdate, hc]
  · simp [moneyFlowUpdate, hc]

/-- `userAuthUpdate` returns `NotFound` exactly when no active row has
the id. -/
theorem userAuthUpdate_notfound_iff (s : DBState) (ua : UserAuth) :
    userAuthUpdate s ua = Except.error StoreErr.notFound
      ↔ s.userAuths.countP (fun r => userAuthUpdateMatch ua r) = 0 := by
  by_cases hc : s.userAuths.countP (fun r => userAuthUpdateMatch ua r) = 0
  · simp [userAuthUpdate, hc]
  · simp [userAuthUpdate, hc]

/-- A successful `userAuthUpdate`: WHERE (id only) matched, table
rewritten by the SET clause — which does not touch the version column. -/
theorem userAuthUpdate_ok_shape {s s' : DBState} {ua : UserAuth}
    (h : userAuthUpdate s ua = Except.ok s') :
    s.userAuths.countP (fun r => userAuthUpdateMatch ua r) ≠ 0
    ∧ s'.userAuths = s.userAuths.map (fun r =>
        if userAuthUpdateMatch ua r then userAuthApplyUpdate ua r else r)
    ∧ s'.userAuths.map (fun r => r.version) = s.userAuths.map (fun r => r.version) := by
  by_cases hc : s.userAuths.countP (fun r => userAuthUpdateMatch ua r) = 0
  · simp [userAuthUpdate, hc] at h
  · simp [userAuthUpdate, hc] at h
    refine ⟨hc, by rw [← h], ?_⟩
    rw [← h]
    have hmk := map_key_of_update (α := UserAuthModel) (β := Int)
      (fun r => r.version) (fun r => userAuthUpdateMatch ua r)
      (userAuthApplyUpdate ua)
      (fun r => (rfl : (userAuthApplyUpdate ua r).version = r.version))
      s.userAuths
    exact hmk

/-! ### Version evolution of a stored entity -/

/-- The stored version of the users row with id `uid` (if present). -/
def userVersionOf (s : DBState) (uid : Nat) : Option Int :=
  (s.users.find? (fun r => r.id == uid)).map (fun r => r.version)

/-- The stored version of the money_flows row with id `mfid` (if
present). -/
def moneyFlowVersionOf (s : DBState) (mfid : Nat) : Option Int :=
  (s.moneyFlows.find? (fun r => r.id == mfid)).map (fun r => r.version)

/-- A sequence of `userUpdate` calls that must all succeed (the spec's "N
successful updates" scenario harness). -/
def applyUserUpdates : DBState → List User → Except StoreErr DBState
  | s, [] => Except.ok s
  | s, u :: rest =>
    match userUpdate s u with
    | Except.error e => Except.error e
    | Except.ok s' => applyUserUpdates s' rest

/-- A sequence of `moneyFlowUpdate` calls that must all succeed. -/
def applyMoneyFlowUpdates : DBState → List MoneyFlow → Except StoreErr DBState
  | s, [] => Except.ok s
  | s, mf :: rest =>
    match moneyFlowUpdate s mf with
    | Except.error e => Except.error e
    | Except.ok s' => applyMoneyFlowUpdates s' rest

/-- One successful `userUpdate` moves the stored version of the touched
row from `u.version - 1` to `u.version` — a delta of exactly `+1` — and
preserves the id column. -/
theorem userUpdate_version_step {s s' : DBState} {u : User}
    (hnd : (s.users.map (fun r => r.id)).Nodup)
    (h : userUpdate s u = Except.ok s') :
    userVersionOf s u.id = some (u.version - 1)
    ∧ userVersionOf s' u.id = some u.version
    ∧ s'.users.map (fun r => r.id) = s.users.map (fun r => r.id) := by
  obtain ⟨hc, hshape⟩ := userUpdate_ok_shape h
  have hmain := find?_attr_of_update (fun r => r.id) (fun r => r.version)
    (fun r => userUpdateMatch u r) (userApplyUpdate u) u.id (u.version - 1) u.version
    s.users hnd hc
    (fun r hr => by
      simp only [userUpdateMatch, Bool.and_eq_true, beq_iff_eq] at hr
      exact hr.1.2)
    (fun r hr => by
      simp only [userUpdateMatch, Bool.and_eq_true, beq_iff_eq] at hr
      exact hr.2)
    (fun r => rfl)
    (fun r _ => rfl)
  refine ⟨hmain.1, ?_, ?_⟩
  · rw [userVersionOf, hshape]
    exact hmain.2
  · rw [hshape]
    exact map_key_of_update (α := User) (β := Nat) (fun r => r.id)
      (fun r => userUpdateMatch u r) (userApplyUpdate u)
      (fun r => rfl) s.users

/-- One successful `moneyFlowUpdate` moves the stored version of the
touched row from `mf.version - 1` to `mf.version` and preserves the id
column. -/
theorem moneyFlowUpdate_version_step {s s' : DBState} {mf : MoneyFlow}
    (hnd : (s.moneyFlows.map (fun r => r.id)).Nodup)
    (h : moneyFlowUpdate s mf = Except.ok s') :
    moneyFlowVersionOf s mf.id = some (mf.version - 1)
    ∧ moneyFlowVersionOf s' mf.id = some mf.version
    ∧ s'.moneyFlows.map (fun r => r.id) = s.moneyFlows.map (fun r => r.id) := by
  obtain ⟨hc, hshape⟩ := moneyFlowUpdate_ok_shape h
  have hmain := find?_attr_of_update (fun r => r.id) (fun r => r.version)
    (fun r => moneyFlowUpdateMatch mf r) (moneyFlowApplyUpdate mf) mf.id
    (mf.version - 1) mf.version s.moneyFlows hnd hc
    (fun r hr => by
      simp only [moneyFlowUpdateMatch, Bool.and_eq_true, beq_iff_eq] at hr
      exact hr.1.2)
    (fun r hr => by
      simp only [moneyFlowUpdateMatch, Bool.and_eq_true, beq_iff_eq] at hr
      exact hr.2)
    (fun r => rfl)
    (fun r _ => rfl)
  refine ⟨hmain.1, ?_, ?_⟩
  · rw [moneyFlowVersionOf, hshape]
    exact hmain.2
  · rw [hshape]
    exact map_key_of_update (α := MoneyFlow) (β := Nat) (fun r => r.id)
      (fun r => moneyFlowUpdateMatch mf r) (moneyFlowApplyUpdate mf)
      (fun r => rfl) s.moneyFlows

/-- After `N` successful updates all addressed to the row `uid`, its
stored version has grown by exactly `N`. -/
theorem applyUserUpdates_version :
    ∀ (us : List User) (s sN : DBState) (uid : Nat) (v : Int),
    (s.users.map (fun r => r.id)).Nodup →
    (∀ u ∈ us, u.id = uid) →
    userVersionOf s uid = some v →
    applyUserUpdates s us = Except.ok sN →
    userVersionOf sN uid = some (v + us.length) := by
  intro us
  induction us with
  | nil =>
    intro s sN uid v hnd hids hv h
    simp only [applyUserUpdates] at h
    cases h
    simpa using hv
  | cons u rest ih =>
    intro s sN uid v hnd hids hv h
    rw [applyUserUpdates] at h
    cases hu : userUpdate s u with
    | error e => rw [hu] at h; cases h
    | ok s' =>
      rw [hu] at h
      have hstep := userUpdate_version_step hnd hu
      have huid : u.id = uid := hids u (List.mem_cons_self u rest)
      rw [huid] at hstep
      have hv1 : u.version - 1 = v := by
        rw [hv] at hstep
        exact (Option.some_injective Int hstep.1.symm)
      have hnd' : (s'.users.map (fun r => r.id)).Nodup := by
        rw [hstep.2.2]
        exact hnd
      have hrest := ih s' sN uid u.version hnd'
        (fun w hw => hids w (List.mem_cons_of_mem u hw)) hstep.2.1 h
      rw [hrest]
      congr 1
      simp only [List.length_cons]
      omega

/-- After `N` successful updates all addressed to the money-flow row
`mfid`, its stored version has grown by exactly `N`. -/
theorem applyMoneyFlowUpdates_version :
    ∀ (ms : List MoneyFlow) (s sN : DBState) (mfid : Nat) (v : Int),
    (s.moneyFlows.map (fun r => r.id)).Nodup →
    (∀ m ∈ ms, m.id = mfid) →
    moneyFlowVersionOf s mfid = some v →
    applyMoneyFlowUpdates s ms = Except.ok sN →
    moneyFlowVersionOf sN mfid = some (v + ms.length) := by
  intro ms
  induction ms with
  | nil =>
    intro s sN mfid v hnd hids hv h
    simp only [applyMoneyFlowUpdates] at h
    cases h
    simpa using hv
  | cons m rest ih =>
    intro s sN mfid v hnd hids hv h
    rw [applyMoneyFlowUpdates] at h
    cases hu : moneyFlowUpdate s m with
    | error e => rw [hu] at h; cases h
    | ok s' =>
      rw [hu] at h
      have hstep := moneyFlowUpdate_version_step hnd hu
      have huid : m.id = mfid := hids m (List.mem_cons_self m rest)
      rw [huid] at hstep
      have hv1 : m.version - 1 = v := by
        rw [hv] at hstep
        exact (Option.some_injective Int hstep.1.symm)
      have hnd' : (s'.moneyFlows.map (fun r => r.id)).Nodup := by
        rw [hstep.2.2]
        exact hnd
      have hrest := ih s' sN mfid m.version hnd'
        (fun w hw => hids w (List.mem_cons_of_mem m hw)) hstep.2.1 h
      rw [hrest]
      congr 1
      simp only [List.length_cons]
      omega

/-! ### C1 — the per-entity Update protocol -/

/-- C1 (amended): for User and MoneyFlow, `Update(entity)` is a single
conditional write whose predicate is `id = entity.id AND version =
entity.version - 1` (within the soft-delete scope), setting `version =
entity.version` and the other mutated fields on the matching rows; it
succeeds exactly when a row is affected (at most one once row ids are
distinct) and fails with `Conflict` when zero rows are affected,
regardless of whether the cause was a concurrent writer or a nonexistent
id.  For UserAuth, however, `Update` is conditioned on the id alone — the
predicate mentions no version, a success leaves every stored version
unchanged — and zero affected rows yields `NotFound`, not `Conflict`. -/
theorem update_protocol_per_entity :
    (∀ (s : DBState) (u : User),
      (s.users.any (fun r =>
        r.deletedAt.isNone && r.id != u.id && r.phoneNumber == u.phoneNumber) = false) →
      (userUpdate s u = Except.error StoreErr.conflict
        ↔ s.users.countP (fun r => userUpdateMatch u r) = 0)
      ∧ (s.users.countP (fun r => userUpdateMatch u r) ≠ 0 →
          userUpdate s u = Except.ok { s with users := s.users.map (fun r => if userUpdateMatch u r then userApplyUpdate u r else r) }))
    ∧ (∀ (s : DBState) (mf : MoneyFlow),
      (moneyFlowUpdate s mf = Except.error StoreErr.conflict
        ↔ s.moneyFlows.countP (fun r => moneyFlowUpdateMatch mf r) = 0)
      ∧ (s.moneyFlows.countP (fun r => moneyFlowUpdateMatch mf r) ≠ 0 →
          moneyFlowUpdate s mf = Except.ok { s with moneyFlows := s.moneyFlows.map (fun r => if moneyFlowUpdateMatch mf r then moneyFlowApplyUpdate mf r else r) }))
    ∧ (∀ (s : DBState) (ua : UserAuth),
      (userAuthUpdate s ua = Except.error StoreErr.notFound
        ↔ s.userAuths.countP (fun r => userAuthUpdateMatch ua r) = 0)
      ∧ (∀ s', userAuthUpdate s ua = Except.ok s' →
          s'.userAuths.map (fun r => r.version)
            = s.userAuths.map (fun r => r.version)))
    ∧ (∀ (s : DBState) (u : User), (s.users.map (fun r => r.id)).Nodup →
        s.users.countP (fun r => userUpdateMatch u r) ≤ 1)
    ∧ (∀ (s : DBState) (mf : MoneyFlow),
        (s.moneyFlows.map (fun r => r.id)).Nodup →
        s.moneyFlows.countP (fun r => moneyFlowUpdateMatch mf r) ≤ 1) := by
  refine ⟨fun s u hdup => ⟨userUpdate_conflict_iff hdup, fun hc => ?_⟩,
    fun s mf => ⟨moneyFlowUpdate_conflict_iff s mf, fun hc => ?_⟩,
    fun s ua => ⟨userAuthUpdate_notfound_iff s ua,
      fun s' h => (userAuthUpdate_ok_shape h).2.2⟩,
    fun s u hnd => ?_, fun s mf hnd => ?_⟩
  · simp [userUpdate, hc, hdup]
  · simp [moneyFlowUpdate, hc]
  · exact countP_le_one_of_nodup_key s.users _ (fun r => r.id) u.id hnd
      (fun r hr => by
        simp only [userUpdateMatch, Bool.and_eq_true, beq_iff_eq] at hr
        exact hr.1.2)
  · exact countP_le_one_of_nodup_key s.moneyFlows _ (fun r => r.id) mf.id hnd
      (fun r hr => by
        simp only [moneyFlowUpdateMatch, Bool.and_eq_true, beq_iff_eq] at hr
        exact hr.1.2)

/-- The C1/C3 counterexample store: a single active user_auths row with
stored version 3. -/
def cex1State : DBState :=
  { users := [], authProviders := [],
    userAuths :=
      [{ id := 9, userId := 1, authProviderId := 7,
         credentialId := "a@x.com", credentialSecret := "h",
         credentialRefresh := none, version := 3, createdAt := 0,
         updatedAt := 0, deletedAt := none }],
    moneyFlows := [] }

/-- A `repository.UserAuth` entity addressing the row id 9 (note the Go
struct carries no version at all, so no `version = entity.version - 1`
predicate could even be formed). -/
def cex1UA : UserAuth :=
  { id := 9, userId := 1, authProviderId := 7, credentialId := "b@x.com",
    credentialSecret := "h2", credentialRefresh := none }

/-- An entity addressing the nonexistent row id 42. -/
def cex1UAMissing : UserAuth :=
  { id := 42, userId := 1, authProviderId := 7, credentialId := "c@x.com",
    credentialSecret := "h3", credentialRefresh := none }

/-- `cex1State` after `userAuthUpdate cex1State cex1UA`: credentials
rewritten, stored version still 3. -/
def cex1After : DBState :=
  { cex1State with
    userAuths :=
      [{ id := 9, userId := 1, authProviderId := 7,
         credentialId := "b@x.com", credentialSecret := "h2",
         credentialRefresh := none, version := 3, createdAt := 0,
         updatedAt := 0, deletedAt := none }] }

/-- Counterexample to C1 as stated: `userAuthRepositoryImpl.Update` is
not the version-gated conditional write the claim ascribes to every
entity.  On a nonexistent id (zero rows affected) it fails with
`NotFound`, not `Conflict`; and it succeeds against a row of stored
version 3 without any version predicate, leaving the version column
unchanged instead of setting it. -/
theorem userAuth_update_not_conflict_cex :
    userAuthUpdate cex1State cex1UAMissing = Except.error StoreErr.notFound
    ∧ (Except.error StoreErr.notFound : Except StoreErr DBState)
        ≠ Except.error StoreErr.conflict
    ∧ userAuthUpdate cex1State cex1UA = Except.ok cex1After
    ∧ cex1After.userAuths.map (fun r => r.version) = [3] := by
  refine ⟨by decide, by decide, by decide, by decide⟩

/-- Witness for C1 (amended): the user table with one active row `(id 1,
version 0)`.  Updating with entity version 1 succeeds and stores version
1; updating again with the same entity version 1 finds zero rows and
fails with `Conflict`, exactly as a lost optimistic-lock race does; and
`userAuthUpdate` on a missing id fails `NotFound`. -/
theorem update_protocol_per_entity_witness :
    userUpdate
        { users := [NewUser "A" "+1" 1 10],
          authProviders := [], userAuths := [], moneyFlows := [] }
        (userIncrementVersion (NewUser "A" "+1" 1 10) 11)
      = Except.ok
        { users := [{ NewUser "A" "+1" 1 10 with version := 1, updatedAt := 11 }],
          authProviders := [], userAuths := [], moneyFlows := [] }
    ∧ userUpdate
        { users := [{ NewUser "A" "+1" 1 10 with version := 1, updatedAt := 11 }],
          authProviders := [], userAuths := [], moneyFlows := [] }
        (userIncrementVersion (NewUser "A" "+1" 1 10) 11)
      = Except.error StoreErr.conflict
    ∧ userAuthUpdate cex1State cex1UAMissing = Except.error StoreErr.notFound := by
  refine ⟨?_, ?_, ?_⟩
  · have h := (update_protocol_per_entity.1
      { users := [NewUser "A" "+1" 1 10],
        authProviders := [], userAuths := [], moneyFlows := [] }
      (userIncrementVersion (NewUser "A" "+1" 1 10) 11) (by decide)).2 (by decide)
    rw [h]
    decide
  · exact (update_protocol_per_entity.1
      { users := [{ NewUser "A" "+1" 1 10 with version := 1, updatedAt := 11 }],
        authProviders := [], userAuths := [], moneyFlows := [] }
      (userIncrementVersion (NewUser "A" "+1" 1 10) 11) (by decide)).1.mpr (by decide)
  · exact (update_protocol_per_entity.2.2.1 cex1State cex1UAMissing).1.mpr (by decide)

/-! ### C3 — version counters -/

/-- C3 (amended): for User and MoneyFlow entities the version counter
starts at 0 at creation (`domain.NewUser` / `domain.NewMoneyFlow`) and
every successful repository update moves the touched row's stored version
by exactly `+1` (never decrementing or skipping), so after `N` successful
updates the stored version equals `N`.  UserAuth rows are the exception:
their update path does not touch the version column (claim C1's
correction), so this counter protocol holds for the two
optimistic-locking entities only. -/
theorem version_counter_protocol :
    (∀ (fullName phone : String) (uid now : Nat),
      (NewUser fullName phone uid now).version = 0)
    ∧ (∀ (userId : Nat) (amount : Int) (currency : String) (mfid now : Nat)
        (mf : MoneyFlow),
      NewMoneyFlow userId amount currency mfid now = Except.ok mf → mf.version = 0)
    ∧ (∀ (s s' : DBState) (u : User),
      (s.users.map (fun r => r.id)).Nodup →
      userUpdate s u = Except.ok s' →
      userVersionOf s' u.id = (userVersionOf s u.id).map (fun v => v + 1))
    ∧ (∀ (s s' : DBState) (mf : MoneyFlow),
      (s.moneyFlows.map (fun r => r.id)).Nodup →
      moneyFlowUpdate s mf = Except.ok s' →
      moneyFlowVersionOf s' mf.id = (moneyFlowVersionOf s mf.id).map (fun v => v + 1))
    ∧ (∀ (us : List User) (s sN : DBState) (uid : Nat),
      (s.users.map (fun r => r.id)).Nodup →
      (∀ u ∈ us, u.id = uid) →
      userVersionOf s uid = some 0 →
      applyUserUpdates s us = Except.ok sN →
      userVersionOf sN uid = some (us.length : Int))
    ∧ (∀ (ms : List MoneyFlow) (s sN : DBState) (mfid : Nat),
      (s.moneyFlows.map (fun r => r.id)).Nodup →
      (∀ m ∈ ms, m.id = mfid) →
      moneyFlowVersionOf s mfid = some 0 →
      applyMoneyFlowUpdates s ms = Except.ok sN →
      moneyFlowVersionOf sN mfid = some (ms.length : Int)) := by
  refine ⟨fun _ _ _ _ => rfl, fun userId amount currency mfid now mf h => ?_,
    fun s s' u hnd h => ?_, fun s s' mf hnd h => ?_,
    fun us s sN uid hnd hids hv h => ?_, fun ms s sN mfid hnd hids hv h => ?_⟩
  · rw [NewMoneyFlow] at h
    by_cases ha : amount ≤ 0
    · rw [if_pos ha] at h
      cases h
    · rw [if_neg ha] at h
      cases h
      rfl
  · have hstep := userUpdate_version_step hnd h
    rw [hstep.1, hstep.2.1]
    simp
  · have hstep := moneyFlowUpdate_version_step hnd h
    rw [hstep.1, hstep.2.1]
    simp
  · have := applyUserUpdates_version us s sN uid 0 hnd hids hv h
    simpa using this
  · have := applyMoneyFlowUpdates_version ms s sN mfid 0 hnd hids hv h
    simpa using this

/-- The C3 counterexample store: the email-password provider plus the
user row the credential link will reference. -/
def cex3S0 : DBState :=
  { users := [NewUser "A" "+1" 1 10],
    authProviders :=
      [{ id := 7, displayName := "Email & Password", name := some "email-password",
         image := none, clientId := none, clientSecret := none,
         version := 0, createdAt := 0, updatedAt := 0, deletedAt := none }],
    userAuths := [], moneyFlows := [] }

/-- The credential-link entity created and then updated in the C3
counterexample. -/
def cex3UA : UserAuth :=
  { id := 2, userId := 1, authProviderId := 7, credentialId := "a@x.com",
    credentialSecret := "h", credentialRefresh := none }

/-- `cex3S0` after creating the credential link (row stored at version
0). -/
def cex3S1 : DBState :=
  { cex3S0 with userAuths := [userAuthDomainToModel cex3UA 10] }

/-- `cex3S1` after one successful `userAuthUpdate` changing the secret:
the stored version is still 0 (and `updated_at` received the converter's
Go zero value). -/
def cex3S2 : DBState :=
  { cex3S0 with
    userAuths :=
      [{ id := 2, userId := 1, authProviderId := 7, credentialId := "a@x.com",
         credentialSecret := "h2", credentialRefresh := none, version := 0,
         createdAt := 10, updatedAt := 0, deletedAt := none }] }

/-- Counterexample to C3 as stated ("for every entity ... version is
incremented by exactly 1 on each successful update; after N successful
updates version equals N"): a user_auths row is created at version 0 and
one successful update leaves its stored version at 0, not 1. -/
theorem userAuth_version_not_incremented_cex :
    userAuthCreate cex3S0 cex3UA 10 = Except.ok cex3S1
    ∧ cex3S1.userAuths.map (fun r => r.version) = [0]
    ∧ userAuthUpdate cex3S1 { cex3UA with credentialSecret := "h2" }
        = Except.ok cex3S2
    ∧ cex3S2.userAuths.map (fun r => r.version) = [0]
    ∧ cex3S2.userAuths.map (fun r => r.version) ≠ [1] := by
  refine ⟨by decide, by decide, by decide, by decide, by decide⟩

/-- Witness for C3: user 1 is created at version 0; two successful
updates (each built by `IncrementVersion` on the previously stored
entity) leave the stored version at exactly 2. -/
theorem version_counter_protocol_witness :
    (NewUser "A" "+1" 1 10).version = 0
    ∧ userVersionOf
        { users := [{ (NewUser "A" "+1" 1 10) with version := 2, updatedAt := 12 }],
          authProviders := [], userAuths := [], moneyFlows := [] } 1
      = some ((2 : Nat) : Int)
    ∧ applyUserUpdates
        { users := [NewUser "A" "+1" 1 10],
          authProviders := [], userAuths := [], moneyFlows := [] }
        [userIncrementVersion (NewUser "A" "+1" 1 10) 11,
         userIncrementVersion (userIncrementVersion (NewUser "A" "+1" 1 10) 11) 12]
      = Except.ok
        { users := [{ (NewUser "A" "+1" 1 10) with version := 2, updatedAt := 12 }],
          authProviders := [], userAuths := [], moneyFlows := [] } := by
  refine ⟨version_counter_protocol.1 "A" "+1" 1 10, ?_, by decide⟩
  have := version_counter_protocol.2.2.2.2.1
    [userIncrementVersion (NewUser "A" "+1" 1 10) 11,
     userIncrementVersion (userIncrementVersion (NewUser "A" "+1" 1 10) 11) 12]
    { users := [NewUser "A" "+1" 1 10],
      authProviders := [], userAuths := [], moneyFlows := [] }
    { users := [{ (NewUser "A" "+1" 1 10) with version := 2, updatedAt := 12 }],
      authProviders := [], userAuths := [], moneyFlows := [] }
    1 (by decide) (by decide) (by decide) (by decide)
  simpa using this

end Catetin
